import Mathlib

/-!
Verification development for the grimoire repository.

The repository shells out to the onepassword command-line tool (`recall`,
`inject` in grimoire/onepassword.py), manages a scoped database connection
(`connect` in grimoire/postgres.py), exposes a small command-line entry point
(grimoire/bin/ansible_onepassword_client.py) and a formatter-configuration
dataclass (grimoire/chronicle/formatter_config.py).

The embedding models byte strings as `List Nat` (one entry per byte), decoded
text as `List Nat` (one entry per Unicode code point), and the external tool
as a function from an argument vector to a process outcome. Exceptions are
modelled with `Except` / explicit result types.
-/

/-- Outcome of running a child process: its exit status and the captured
standard-output and standard-error byte streams, as produced by
`p.communicate()` in the source. -/
structure ProcResult where
  returncode : Int
  stdout : List Nat
  stderr : List Nat
deriving DecidableEq, Repr

/-- The exceptions the onepassword wrappers can raise: `RuntimeError` with a
decoded message (raised on a non-zero exit status), or `UnicodeDecodeError`
(raised by a strict `bytes.decode` on invalid UTF-8 input). -/
inductive PyError where
  | runtimeError (msg : List Nat)
  | unicodeDecodeError
deriving DecidableEq, Repr

/-- Strict UTF-8 decoding, one code point at a time, as performed by Python's
`bytes.decode` with its default strict error handler: rejects overlong forms,
surrogates, code points above U+10FFFF, stray or missing continuation bytes.
The four extra arguments track, inside a multi-byte sequence, the number of
continuation bytes still expected, the accumulated code-point value, and the
allowed range for the next byte. -/
def utf8DecodeAux : Nat → Nat → Nat → Nat → List Nat → Option (List Nat)
  | 0, _, _, _, [] => some []
  | 0, _, _, _, b :: rest =>
    if b ≤ 0x7F then (utf8DecodeAux 0 0 0 0 rest).map (fun t => b :: t)
    else if 0xC2 ≤ b ∧ b ≤ 0xDF then utf8DecodeAux 1 (b - 0xC0) 0x80 0xBF rest
    else if b = 0xE0 then utf8DecodeAux 2 0 0xA0 0xBF rest
    else if 0xE1 ≤ b ∧ b ≤ 0xEC then utf8DecodeAux 2 (b - 0xE0) 0x80 0xBF rest
    else if b = 0xED then utf8DecodeAux 2 (b - 0xE0) 0x80 0x9F rest
    else if 0xEE ≤ b ∧ b ≤ 0xEF then utf8DecodeAux 2 (b - 0xE0) 0x80 0xBF rest
    else if b = 0xF0 then utf8DecodeAux 3 0 0x90 0xBF rest
    else if 0xF1 ≤ b ∧ b ≤ 0xF3 then utf8DecodeAux 3 (b - 0xF0) 0x80 0xBF rest
    else if b = 0xF4 then utf8DecodeAux 3 (b - 0xF0) 0x80 0x8F rest
    else none
  | 1, acc, lo, hi, b :: rest =>
    if lo ≤ b ∧ b ≤ hi then
      (utf8DecodeAux 0 0 0 0 rest).map (fun t => (acc * 0x40 + (b - 0x80)) :: t)
    else none
  | p + 2, acc, lo, hi, b :: rest =>
    if lo ≤ b ∧ b ≤ hi then
      utf8DecodeAux (p + 1) (acc * 0x40 + (b - 0x80)) 0x80 0xBF rest
    else none
  | _ + 1, _, _, _, [] => none

/-- Decode a byte string strictly as UTF-8 into a list of code points;
`none` models a raised `UnicodeDecodeError`. -/
def utf8Decode (bs : List Nat) : Option (List Nat) :=
  utf8DecodeAux 0 0 0 0 bs

/-- The code points Python's `str.strip()` removes at the ends of a string
(the characters for which `str.isspace()` is true). -/
def isPySpace (c : Nat) : Bool :=
  decide ((0x09 ≤ c ∧ c ≤ 0x0D) ∨ (0x1C ≤ c ∧ c ≤ 0x1F) ∨ c = 0x20 ∨ c = 0x85 ∨
    c = 0xA0 ∨ c = 0x1680 ∨ (0x2000 ≤ c ∧ c ≤ 0x200A) ∨ c = 0x2028 ∨ c = 0x2029 ∨
    c = 0x202F ∨ c = 0x205F ∨ c = 0x3000)

/-- Python's `str.strip()` on a decoded string: drop whitespace code points
from both ends. -/
def pyStrip (s : List Nat) : List Nat :=
  ((s.dropWhile isPySpace).reverse.dropWhile isPySpace).reverse

/-- Python's `list.insert(i, x)` for a non-negative index: insert before
position `i`, appending when `i` is past the end. -/
def pyInsert (i : Nat) (x : α) : List α → List α
  | [] => [x]
  | a :: as =>
    match i with
    | 0 => x :: a :: as
    | j + 1 => a :: pyInsert j x as

/-- The argument vector `recall` builds in grimoire/onepassword.py: the base
list is assembled first and, when a vault is given, the vault flag is inserted
at index 3 with `args.insert(3, ...)`. -/
def recallArgs (item field : String) (vault : Option String) : List String :=
  let args := ["op", "item", "get", "--fields=label=" ++ field, item]
  match vault with
  | none => args
  | some v => pyInsert 3 ("--vault=" ++ v) args

/-- The argument vector `inject` builds in grimoire/onepassword.py. -/
def injectArgs (template : String) : List String :=
  ["op", "inject", "--in-file=" ++ template]

/-- The tail of `recall` and `inject` after `p.communicate()` returns: on a
non-zero exit status, `raise RuntimeError(stderr.decode("utf-8"))`; otherwise
`return stdout.decode("utf-8").strip()`. A failed strict decode raises
`UnicodeDecodeError` instead. -/
def runTool (p : ProcResult) : Except PyError (List Nat) :=
  if p.returncode ≠ 0 then
    match utf8Decode p.stderr with
    | none => .error .unicodeDecodeError
    | some msg => .error (.runtimeError msg)
  else
    match utf8Decode p.stdout with
    | none => .error .unicodeDecodeError
    | some t => .ok (pyStrip t)

/-- `recall` from grimoire/onepassword.py, with the external tool modelled as
a function from the argument vector to a process outcome. -/
def «recall» (tool : List String → ProcResult) (item field : String)
    (vault : Option String) : Except PyError (List Nat) :=
  runTool (tool (recallArgs item field vault))

/-- `inject` from grimoire/onepassword.py, with the external tool modelled as
a function from the argument vector to a process outcome. -/
def inject (tool : List String → ProcResult) (template : String) :
    Except PyError (List Nat) :=
  runTool (tool (injectArgs template))

/-- The argument list exactly as claim C4 words the CLI contract: the item
identifier before the field-selection flag (written as the two tokens
`--fields` and `label=<field>`), and the vault flag last when present. Kept
separate from `recallArgs`, which is translated from the source, so the two
can be compared. -/
def claimedRecallArgs (item field : String) (vault : Option String) :
    List String :=
  ["op", "item", "get", item, "--fields", "label=" ++ field] ++
    (match vault with
     | none => []
     | some v => ["--vault=" ++ v])

/-- Result of running a Python block that may raise: a value or an
exception. -/
inductive PyResult (ε α : Type) where
  | ok (a : α)
  | exn (e : ε)
deriving DecidableEq, Repr

/-- A test double for the database driver, as the spec's testable properties
describe: `openConn` either yields a handle or fails, and `close` releases
one; both may record their calls in a state of type `σ`. -/
structure Driver (σ ε κ : Type) where
  openConn : σ → Except ε κ × σ
  close : κ → σ → σ

/-- `connect` from grimoire/postgres.py: open a connection (an open failure
propagates and nothing else runs), run the caller's scope body with the
handle inside `try:`, and in `finally:` close the handle. The source's
`if con is not None` guard is vacuous because a successful open always
returns a handle, so the close always runs after the body. -/
def connect (d : Driver σ ε κ) (body : κ → σ → PyResult ε α × σ) (s : σ) :
    PyResult ε α × σ :=
  match d.openConn s with
  | (.error e, s1) => (.exn e, s1)
  | (.ok con, s1) =>
    let r := body con s1
    (r.1, d.close con r.2)

/-- Open/close call counts recorded by the driver test doubles. -/
structure CallCounts where
  openCalls : Nat
  closeCalls : Nat
deriving DecidableEq, Repr

/-- A driver double whose open always succeeds; it records every open and
every close in the call counts. -/
def countingDriver {ε : Type} : Driver CallCounts ε Unit where
  openConn := fun s => (.ok (), { s with openCalls := s.openCalls + 1 })
  close := fun _ s => { s with closeCalls := s.closeCalls + 1 }

/-- A driver double whose open always fails with `e`; the handle type is
`Empty`, so no handle can even exist on this driver. It records open
attempts. -/
def failingDriver {ε : Type} (e : ε) : Driver CallCounts ε Empty where
  openConn := fun s => (.error e, { s with openCalls := s.openCalls + 1 })
  close := fun con _ => con.elim

/-- Outcome of the command-line entry point in
grimoire/bin/ansible_onepassword_client.py: either the process exited early
with a status code and text on standard error, or argument parsing succeeded
and `recall` was invoked with the parsed item and field. -/
inductive CliOutcome where
  | exited (code : Nat) (stderrText : String)
  | ranRecall (item field : String)
deriving DecidableEq, Repr

/-- Whether the outcome reached the secret-retrieval call. -/
def CliOutcome.attemptsRecall : CliOutcome → Bool
  | .exited _ _ => false
  | .ranRecall _ _ => true

/-- Look up the value following an option flag in an argument vector. -/
def findOptValue (flag : String) : List String → Option String
  | [] => none
  | a :: rest => if a = flag then rest.head? else findOptValue flag rest

/-- Modelled from the spec: the usage text the argument parser prints when
the required vault-id option is missing. The parser itself is the standard
argument-parsing library and the program name comes from the packaging
entry-point declaration, neither of which is under the sources; the spec
states the message begins with usage colon ansible-onepassword-client. -/
def usageText : String :=
  "usage: ansible-onepassword-client" ++
    " [-h] --vault-id VAULT_ID [--field FIELD]\nansible-onepassword-client: error: the following arguments are required: --vault-id\n"

/-- Modelled from the spec: `main` of
grimoire/bin/ansible_onepassword_client.py. The source declares a required
vault-id option and a field option defaulting to credential, then calls
`recall`; the argument-parsing library (not under the sources) exits with
status 2 and a usage message when the required option is missing, and
`recall` is only reached after parsing succeeds. -/
def cliMain (argv : List String) : CliOutcome :=
  match findOptValue ("--vault-id") argv with
  | none => .exited 2 usageText
  | some vaultId =>
    .ranRecall vaultId ((findOptValue ("--field") argv).getD ("credential"))

/-- The module-level default logging format string of
grimoire/chronicle/formatter_config.py. -/
def DEFAULT_FORMAT : String := "[%(asctime)s] [%(levelname)s] [%(name)s] %(message)s"

/-- `FormatterConfig` from grimoire/chronicle/formatter_config.py: a
dataclass with a single `format` field defaulting to `DEFAULT_FORMAT`. -/
structure FormatterConfig where
  format : String := DEFAULT_FORMAT
deriving DecidableEq, Repr

/-- The dictionary serialisation mashumaro's mixin derives for
`FormatterConfig`: one entry per field, keyed by the field name. -/
def FormatterConfig.to_dict (c : FormatterConfig) : List (String × String) :=
  [(("format"), c.format)]

/-- The dictionary deserialisation mashumaro's mixin derives for
`FormatterConfig`: take the value at the field's key, or the field's default
when the key is absent. -/
def FormatterConfig.from_dict (d : List (String × String)) : FormatterConfig :=
  match d.find? (fun kv => kv.1 == "format") with
  | some kv => { format := kv.2 }
  | none => {}

/-- A tool double that fails: exit status 1, one byte on standard output,
the bytes of the text hi on standard error. -/
def toolFail : List String → ProcResult := fun _ => ⟨1, [0x61], [0x68, 0x69]⟩

/-- A tool double that succeeds: exit status 0, the bytes of a space, the
text hi and a newline on standard output. -/
def toolOk : List String → ProcResult := fun _ => ⟨0, [0x20, 0x68, 0x69, 0x0A], [0x62]⟩

/-- A tool double whose two output streams are both the single byte 0xFF,
which is not valid UTF-8, with exit status given by the argument. -/
def toolBadBytes (code : Int) : List String → ProcResult := fun _ => ⟨code, [0xFF], [0xFF]⟩

/-- C1: for every invocation of `recall` and of `inject`, a non-zero exit
status of the external tool makes the operation fail with the external-tool
error carrying the decoded standard-error text as its message, and a zero
exit status makes it return the decoded standard-output text trimmed of
leading and trailing whitespace. -/
theorem recall_inject_exit_code_semantics
    (tool : List String → ProcResult) (item field template : String)
    (vault : Option String) :
    ((tool (recallArgs item field vault)).returncode ≠ 0 →
      ∀ msg, utf8Decode (tool (recallArgs item field vault)).stderr = some msg →
        «recall» tool item field vault = .error (.runtimeError msg)) ∧
    ((tool (recallArgs item field vault)).returncode = 0 →
      ∀ out, utf8Decode (tool (recallArgs item field vault)).stdout = some out →
        «recall» tool item field vault = .ok (pyStrip out)) ∧
    ((tool (injectArgs template)).returncode ≠ 0 →
      ∀ msg, utf8Decode (tool (injectArgs template)).stderr = some msg →
        inject tool template = .error (.runtimeError msg)) ∧
    ((tool (injectArgs template)).returncode = 0 →
      ∀ out, utf8Decode (tool (injectArgs template)).stdout = some out →
        inject tool template = .ok (pyStrip out)) := by
  refine ⟨fun h msg hm => ?_, fun h out ho => ?_, fun h msg hm => ?_, fun h out ho => ?_⟩
  · simp [«recall», runTool, h, hm]
  · simp [«recall», runTool, h, ho]
  · simp [inject, runTool, h, hm]
  · simp [inject, runTool, h, ho]

/-- Witness for C1 at concrete tool doubles: a failing tool with the bytes of
hi on standard error, and a succeeding tool with space-hi-newline on standard
output. -/
theorem recall_inject_exit_code_semantics_witness :
    «recall» toolFail ("a") ("b") none = .error (.runtimeError [0x68, 0x69]) ∧
    «recall» toolOk ("a") ("b") none = .ok [0x68, 0x69] ∧
    inject toolFail ("t") = .error (.runtimeError [0x68, 0x69]) ∧
    inject toolOk ("t") = .ok [0x68, 0x69] := by
  refine ⟨?_, ?_, ?_, ?_⟩
  · exact (recall_inject_exit_code_semantics toolFail ("a") ("b") ("t") none).1
      (by decide) [0x68, 0x69] (by decide)
  · exact ((recall_inject_exit_code_semantics toolOk ("a") ("b") ("t") none).2.1
      (by decide) [0x20, 0x68, 0x69, 0x0A] (by decide)).trans
      (congrArg Except.ok (by decide))
  · exact (recall_inject_exit_code_semantics toolFail ("a") ("b") ("t") none).2.2.1
      (by decide) [0x68, 0x69] (by decide)
  · exact ((recall_inject_exit_code_semantics toolOk ("a") ("b") ("t") none).2.2.2
      (by decide) [0x20, 0x68, 0x69, 0x0A] (by decide)).trans
      (congrArg Except.ok (by decide))

/-- C2: for every successful open and every behaviour of the scope body
(normal completion or a raised error), `connect` closes the connection
exactly once before returning — open count and close count are both one —
and an error raised inside the body propagates unchanged after the close. -/
theorem connect_closes_exactly_once {ε α : Type} (b : PyResult ε α) (e : ε) :
    connect countingDriver (fun _ s => (b, s)) ⟨0, 0⟩ = (b, ⟨1, 1⟩) ∧
    connect countingDriver (fun _ s => ((.exn e : PyResult ε α), s)) ⟨0, 0⟩ =
      (.exn e, ⟨1, 1⟩) :=
  ⟨rfl, rfl⟩

/-- C3: when the driver's open call itself fails, `connect` produces no
handle (the handle type of the failing driver is empty), attempts no close
(close count stays zero), and surfaces the driver's failure unchanged. -/
theorem connect_open_failure_no_close {ε α : Type} (e : ε)
    (body : Empty → CallCounts → PyResult ε α × CallCounts) :
    connect (failingDriver e) body ⟨0, 0⟩ = (.exn e, ⟨1, 0⟩) :=
  rfl

/-- Counterexample to C4 as stated: at item it, field f (and vault v), the
argument list the source builds differs from the claimed list that puts the
item before the field-selection flag and the vault flag last, both with and
without a vault. -/
theorem recallArgs_ne_claimed_cli_contract :
    recallArgs ("it") ("f") (some ("v")) ≠ claimedRecallArgs ("it") ("f") (some ("v")) ∧
    recallArgs ("it") ("f") none ≠ claimedRecallArgs ("it") ("f") none :=
  ⟨by decide, by decide⟩

/-- C4 as amended: the tool executable is named op; retrieval is invoked as
op item get, then the vault flag when present, then the single token joining
the fields flag with label=field, then the item identifier last; injection is
invoked as op inject with the single in-file token. -/
theorem op_invocation_argument_lists (item field v template : String) :
    recallArgs item field none =
      ["op", "item", "get", "--fields=label=" ++ field, item] ∧
    recallArgs item field (some v) =
      ["op", "item", "get", "--vault=" ++ v, "--fields=label=" ++ field, item] ∧
    injectArgs template = ["op", "inject", "--in-file=" ++ template] :=
  ⟨rfl, rfl, rfl⟩

/-- C5: with a vault supplied, the constructed argument list contains the
vault-scoping flag positioned before the item identifier (which is last);
with the vault omitted, the list is the base list, and any member of it of
vault-flag shape can only be the caller-supplied item or field text. -/
theorem recall_vault_flag_before_item (item field v : String) :
    (∃ pre mid, recallArgs item field (some v) =
      pre ++ ("--vault=" ++ v) :: (mid ++ [item])) ∧
    recallArgs item field none =
      ["op", "item", "get", "--fields=label=" ++ field, item] ∧
    (∀ s : String, ("--vault=" ++ s) ∈ recallArgs item field none →
      ("--vault=" ++ s) = item ∨ ("--vault=" ++ s) = "--fields=label=" ++ field) := by
  refine ⟨⟨["op", "item", "get"], ["--fields=label=" ++ field], rfl⟩, rfl, ?_⟩
  intro s hs
  have hs' : ("--vault=" ++ s) = "op" ∨ ("--vault=" ++ s) = "item" ∨
      ("--vault=" ++ s) = "get" ∨ ("--vault=" ++ s) = "--fields=label=" ++ field ∨
      ("--vault=" ++ s) = item := by
    simpa [recallArgs] using hs
  have hlen : ("--vault=" ++ s).length = 8 + s.length := by
    rw [String.length_append]
    rfl
  rcases hs' with h | h | h | h | h
  · have h1 := congrArg String.length h
    rw [hlen] at h1
    have h2 : ("op").length = 2 := rfl
    omega
  · have h1 := congrArg String.length h
    rw [hlen] at h1
    have h2 : ("item").length = 4 := rfl
    omega
  · have h1 := congrArg String.length h
    rw [hlen] at h1
    have h2 : ("get").length = 3 := rfl
    omega
  · exact Or.inr h
  · exact Or.inl h

/-- Witness for C5 at concrete strings: taking the item itself of vault-flag
shape, membership in the vault-less argument list forces the flag-shaped
member to be the item or the field token. -/
theorem recall_vault_flag_before_item_witness :
    ("--vault=" ++ "x") = "--vault=x" ∨
      ("--vault=" ++ "x") = "--fields=label=" ++ "f" :=
  (recall_vault_flag_before_item ("--vault=x") ("f") ("v")).2.2 ("x") (by decide)

/-- C6: invoking the command-line tool with no arguments exits with status 2
and a usage message on standard error beginning with usage colon
ansible-onepassword-client, and no secret retrieval is attempted. -/
theorem cli_no_arguments_usage_error :
    cliMain [] = .exited 2 usageText ∧
    (∃ rest, usageText = "usage: ansible-onepassword-client" ++ rest) ∧
    (cliMain []).attemptsRecall = false :=
  ⟨rfl, ⟨_, rfl⟩, rfl⟩

/-- C7: a formatter configuration constructed with no explicit format string
has its format field equal to the default pattern. -/
theorem formatterConfig_default_format :
    (({} : FormatterConfig)).format =
      "[%(asctime)s] [%(levelname)s] [%(name)s] %(message)s" ∧
    DEFAULT_FORMAT = "[%(asctime)s] [%(levelname)s] [%(name)s] %(message)s" :=
  ⟨rfl, rfl⟩

/-- C8: with a vault, the full constructed list is exactly op, item, get, the
vault flag at index three, the fields token, then the item; without a vault
it is exactly the same list minus the vault flag. -/
theorem recallArgs_vault_inserted_at_index_three (item field v : String) :
    recallArgs item field (some v) =
      ["op", "item", "get", "--vault=" ++ v, "--fields=label=" ++ field, item] ∧
    recallArgs item field none =
      ["op", "item", "get", "--fields=label=" ++ field, item] :=
  ⟨rfl, rfl⟩

/-- C9: when the relevant output stream (standard error on a non-zero exit,
standard output on a zero exit) is not valid UTF-8, `recall` and `inject`
fail with the decoding error rather than returning a value or raising the
external-tool error. -/
theorem recall_inject_strict_utf8
    (tool : List String → ProcResult) (item field template : String)
    (vault : Option String) :
    ((tool (recallArgs item field vault)).returncode ≠ 0 →
      utf8Decode (tool (recallArgs item field vault)).stderr = none →
        «recall» tool item field vault = .error .unicodeDecodeError) ∧
    ((tool (recallArgs item field vault)).returncode = 0 →
      utf8Decode (tool (recallArgs item field vault)).stdout = none →
        «recall» tool item field vault = .error .unicodeDecodeError) ∧
    ((tool (injectArgs template)).returncode ≠ 0 →
      utf8Decode (tool (injectArgs template)).stderr = none →
        inject tool template = .error .unicodeDecodeError) ∧
    ((tool (injectArgs template)).returncode = 0 →
      utf8Decode (tool (injectArgs template)).stdout = none →
        inject tool template = .error .unicodeDecodeError) := by
  refine ⟨fun h hm => ?_, fun h hm => ?_, fun h hm => ?_, fun h hm => ?_⟩
  · simp [«recall», runTool, h, hm]
  · simp [«recall», runTool, h, hm]
  · simp [inject, runTool, h, hm]
  · simp [inject, runTool, h, hm]

/-- Witness for C9 at a concrete tool double whose streams hold the single
byte 0xFF, which is not valid UTF-8, with both exit statuses. -/
theorem recall_inject_strict_utf8_witness :
    «recall» (toolBadBytes 1) ("a") ("b") none = .error .unicodeDecodeError ∧
    «recall» (toolBadBytes 0) ("a") ("b") none = .error .unicodeDecodeError ∧
    inject (toolBadBytes 1) ("t") = .error .unicodeDecodeError ∧
    inject (toolBadBytes 0) ("t") = .error .unicodeDecodeError := by
  refine ⟨?_, ?_, ?_, ?_⟩
  · exact (recall_inject_strict_utf8 (toolBadBytes 1) ("a") ("b") ("t") none).1
      (by decide) (by decide)
  · exact (recall_inject_strict_utf8 (toolBadBytes 0) ("a") ("b") ("t") none).2.1
      (by decide) (by decide)
  · exact (recall_inject_strict_utf8 (toolBadBytes 1) ("a") ("b") ("t") none).2.2.1
      (by decide) (by decide)
  · exact (recall_inject_strict_utf8 (toolBadBytes 0) ("a") ("b") ("t") none).2.2.2
      (by decide) (by decide)

/-- C10: serialising a formatter configuration to a dictionary and
deserialising that dictionary yields the configuration back — the dictionary
round-trip is the identity. -/
theorem formatterConfig_dict_roundtrip (c : FormatterConfig) :
    FormatterConfig.from_dict c.to_dict = c :=
  rfl
